import Mathlib

/-!
Verification of the indexing-job dashboard core of the Epstein_Rag
repository: the client-side real-time channel (`DashboardWebSocket` in
`dashboard_frontend/src/pages/Search.tsx`), the REST list-fetcher
unwrapping (`dashboard_frontend/src/lib/api.ts`), the Jobs page status
filter, and the (backend) job lifecycle engine.

Machine integers do not occur: all counters are JavaScript numbers used
as small naturals, embedded as `Nat`.
-/

namespace EpsteinRag

/-! ### JSON values

A parsed JSON value, as produced by `JSON.parse` on a response body or a
WebSocket frame.  JavaScript objects parsed from JSON have unique keys,
represented here as an association list looked up front-to-back. -/

inductive Json where
  | null
  | bool (b : Bool)
  | num (n : Int)
  | str (s : String)
  | arr (elts : List Json)
  | obj (fields : List (String × Json))

/-- JavaScript property lookup `o[key]` on a parsed-JSON object:
`some v` when the field is present, `none` when it is absent
(JavaScript `undefined`). -/
def lookupField : List (String × Json) → String → Option Json
  | [], _ => none
  | (k, v) :: rest, key => if k = key then some v else lookupField rest key

/-! ### Wire messages

`WebSocketMessage` from `Search.tsx`: `{ type: string, data: unknown }`.
The `data` payload is an arbitrary parsed JSON value. -/

structure WSMessage where
  type : String
  data : Json

/-! ### Handler registry

`DashboardWebSocket.handlers : Map<string, Set<MessageHandler>>`.
Handlers are identified by numbers.  A `Set` holds each member at most
once in insertion order; `Set.add` of a present member is a no-op and
`Set.delete` removes the member. -/

abbrev Registry := List (String × List Nat)

/-- `this.handlers.get(event)` followed by iteration: the handler list
for an event, empty when no entry exists. -/
def regGet : Registry → String → List Nat
  | [], _ => []
  | (k, l) :: rest, e => if k = e then l else regGet rest e

/-- The body of `DashboardWebSocket.on`: ensure an entry exists for the
event, then `Set.add` the handler (a no-op when already present). -/
def regAdd : Registry → String → Nat → Registry
  | [], e, h => [(e, [h])]
  | (k, l) :: rest, e, h =>
    if k = e then (k, if h ∈ l then l else l ++ [h]) :: rest
    else (k, l) :: regAdd rest e h

/-- The detach closure returned by `on`:
`this.handlers.get(event)?.delete(handler)` — a no-op when the entry is
absent, otherwise `Set.delete` of the (unique) member. -/
def regDel : Registry → String → Nat → Registry
  | [], _, _ => []
  | (k, l) :: rest, e, h =>
    if k = e then (k, l.filter (fun x => x ≠ h)) :: rest
    else (k, l) :: regDel rest e h

/-- `DashboardWebSocket.emit`: invoke every handler registered under the
event with the message.  The result is the list of invocations
(handler, argument) in iteration order. -/
def emit (r : Registry) (e : String) (m : WSMessage) : List (Nat × WSMessage) :=
  (regGet r e).map (fun h => (h, m))

/-! ### The WebSocket client -/

inductive ReadyState where
  | connecting
  | opened
  | closing
  | closed
deriving DecidableEq

/-- A browser `WebSocket` object; `sid` distinguishes distinct
`new WebSocket(...)` allocations. -/
structure Socket where
  readyState : ReadyState
  sid : Nat
deriving DecidableEq

/-- The mutable fields of `DashboardWebSocket`.  `reconnectTimer` is the
pending `setTimeout` handle, carrying the delay it was scheduled with;
`nextSid` counts socket allocations. -/
structure WSClient where
  ws : Option Socket
  handlers : Registry
  reconnectTimer : Option Nat
  reconnectDelay : Nat
  maxReconnectDelay : Nat
  nextSid : Nat

/-- The client as constructed: no socket, no handlers, no pending timer,
`reconnectDelay = 1000`, `maxReconnectDelay = 30000`. -/
def WSClient.init : WSClient :=
  { ws := none, handlers := [], reconnectTimer := none,
    reconnectDelay := 1000, maxReconnectDelay := 30000, nextSid := 0 }

/-- `this.ws?.readyState === WebSocket.OPEN`. -/
def readyStateIsOpen : Option Socket → Bool
  | some s => s.readyState = .opened
  | none => false

/-- `DashboardWebSocket.connect`: a no-op when the current socket is
open, otherwise allocate a fresh socket (initially `CONNECTING`). -/
def wsConnect (c : WSClient) : WSClient :=
  if readyStateIsOpen c.ws then c
  else { c with ws := some ⟨.connecting, c.nextSid⟩, nextSid := c.nextSid + 1 }

/-- `DashboardWebSocket.scheduleReconnect`: a no-op while a timer is
pending, otherwise schedule a timer with the current delay. -/
def scheduleReconnect (c : WSClient) : WSClient :=
  match c.reconnectTimer with
  | some _ => c
  | none => { c with reconnectTimer := some c.reconnectDelay }

/-- The `setTimeout` callback inside `scheduleReconnect` firing: clear
the timer, double the delay (capped at `maxReconnectDelay`), reconnect. -/
def timerFire (c : WSClient) : WSClient :=
  match c.reconnectTimer with
  | none => c
  | some _ =>
    wsConnect { c with reconnectTimer := none,
                       reconnectDelay := min (c.reconnectDelay * 2) c.maxReconnectDelay }

/-- The synthetic status message `{ type: "metrics_update",
data: { connected } }` emitted from `onopen` / `onclose`. -/
def connMsg (connected : Bool) : WSMessage :=
  ⟨"metrics_update", .obj [("connected", .bool connected)]⟩

/-- The `onopen` handler: the socket is now open, the delay resets to
1000, and the status message is emitted under the `"connection"` key
(and only there). -/
def wsOnOpen (c : WSClient) : WSClient × List (Nat × WSMessage) :=
  let c1 := { c with ws := c.ws.map (fun s => { s with readyState := .opened }),
                     reconnectDelay := 1000 }
  (c1, emit c1.handlers "connection" (connMsg true))

/-- The `onclose` handler: the socket is now closed, the status message
is emitted under the `"connection"` key, and a reconnect is scheduled. -/
def wsOnClose (c : WSClient) : WSClient × List (Nat × WSMessage) :=
  let c1 := { c with ws := c.ws.map (fun s => { s with readyState := .closed }) }
  (scheduleReconnect c1, emit c1.handlers "connection" (connMsg false))

/-- The `onmessage` handler.  The argument is the outcome of
`JSON.parse(event.data)`: `none` when parsing threw (the catch block
ignores the frame), `some m` when it yielded a message object.  On
success the full message is emitted under its own `type` and under
`"*"`. -/
def wsOnMessage (c : WSClient) (parsed : Option WSMessage) :
    WSClient × List (Nat × WSMessage) :=
  match parsed with
  | none => (c, [])
  | some m => (c, emit c.handlers m.type m ++ emit c.handlers "*" m)

/-- `DashboardWebSocket.disconnect`: clear any pending timer, close and
drop the socket. -/
def wsDisconnect (c : WSClient) : WSClient :=
  { c with reconnectTimer := none, ws := none }

/-- `DashboardWebSocket.on`: register a handler under an event kind. -/
def wsOn (c : WSClient) (event : String) (h : Nat) : WSClient :=
  { c with handlers := regAdd c.handlers event h }

/-- Calling the detach closure returned by `on` for `(event, h)`. -/
def detach (c : WSClient) (event : String) (h : Nat) : WSClient :=
  { c with handlers := regDel c.handlers event h }

/-! ### Reentrant dispatch

`emit` iterates a JavaScript `Set` with `forEach`, and a handler may
call a detach closure during the iteration.  `Set.forEach` visits the
members in insertion order and skips any member deleted before being
visited.  `emitD` makes that explicit: it walks the snapshot of the
handler list taken at dispatch start, invokes a handler only while it is
still registered, and applies the detach requests the handler makes
(`eff h`) before moving on. -/

/-- Apply a batch of detach requests `(event, handler)` to the registry. -/
def runEffects : List (String × Nat) → Registry → Registry
  | [], r => r
  | (e, h) :: rest, r => runEffects rest (regDel r e h)

/-- Dispatch the pending handler list for event `e`, threading the
registry through the detach requests each invoked handler makes. -/
def emitD (eff : Nat → List (String × Nat)) :
    Registry → String → List Nat → WSMessage → Registry × List (Nat × WSMessage)
  | r, _, [], _ => (r, [])
  | r, e, h :: rest, m =>
    if h ∈ regGet r e then
      let res := emitD eff (runEffects (eff h) r) e rest m
      (res.1, (h, m) :: res.2)
    else emitD eff r e rest m

/-! ### Jobs page data model

`IndexingJob` from `dashboard_frontend/src/lib/api.ts`; the status
filter from the `Jobs` page component. -/

structure IndexingJob where
  id : String
  source_type : String
  source_url : String
  status : String
  total_files : Nat
  processed_files : Nat
  failed_files : Nat
  current_file : String
  progress_percent : Int
  started_at : String
  completed_at : Option String
  error_message : Option String
  metadata : List (String × Json)

/-- The `filtered` list of the `Jobs` component:
`jobs.filter((j) => statusFilter === "all" ? true : j.status === statusFilter)`. -/
def jobsFiltered (statusFilter : String) (jobs : List IndexingJob) : List IndexingJob :=
  jobs.filter (fun j => if statusFilter = "all" then true else j.status = statusFilter)

/-- `STATUS_OPTIONS` from the `Jobs` page. -/
def STATUS_OPTIONS : List String :=
  ["all", "pending", "processing", "completed", "failed", "cancelled"]

/-! ### List-endpoint envelope unwrapping

`fetchJobs` / `fetchRecentQueries` from `lib/api.ts`:
`Array.isArray(data) ? data : data.jobs ?? []` (resp. `data.queries`).
The result is `none` when the JavaScript expression throws (property
access on `null`), `some v` otherwise. -/

/-- `Array.isArray(data) ? data : data[field] ?? []` on a parsed
response body. -/
def unwrapListField (field : String) : Json → Option Json
  | .arr elts => some (.arr elts)
  | .null => none
  | .obj fields =>
    some (match lookupField fields field with
          | some Json.null => Json.arr []
          | some v => v
          | none => Json.arr [])
  | _ => some (.arr [])

/-- The unwrapping performed by `fetchJobs`. -/
def fetchJobsUnwrap : Json → Option Json := unwrapListField "jobs"

/-- The unwrapping performed by `fetchRecentQueries`. -/
def fetchRecentQueriesUnwrap : Json → Option Json := unwrapListField "queries"

/-! ### Job lifecycle engine

Modelled from the spec: the backend job lifecycle engine (the Python
`dashboard_backend`/`mcp_server` services) is not part of the source
tree; the definitions below follow spec §4.2 (state machine), §4.3 and
§6 (operation signatures) word for word. -/

inductive JobStatus where
  | pending
  | processing
  | completed
  | failed
  | cancelled
deriving DecidableEq

/-- Modelled from the spec: the terminal statuses are `completed`,
`failed`, `cancelled`. -/
def JobStatus.isTerminal : JobStatus → Bool
  | .completed => true
  | .failed => true
  | .cancelled => true
  | _ => false

/-- Modelled from the spec: the mutable fields of a Job (§3).  `id`,
`source` and `metadata` are immutable after creation and elided. -/
structure Job where
  status : JobStatus
  total_files : Nat
  processed_files : Nat
  failed_files : Nat
  current_file : Option String
  started_at : Option Nat
  completed_at : Option Nat
  error_message : Option String
deriving DecidableEq

/-- The typed `accepted | rejected(reason)` result of a mutation. -/
inductive OpResult where
  | accepted
  | rejected (reason : String)
deriving DecidableEq

/-- Modelled from the spec: `reportProgress(jobId, cumulativeProcessed,
cumulativeFailed, currentFile?)`.  Rejected on a terminal job; rejected
as stale when a cumulative count is lower than the stored one;
otherwise moves the job to `processing` (setting `started_at` on the
first report) and stores the cumulative counts. -/
def reportProgress (j : Job) (now p f : Nat) (cf : Option String) : Job × OpResult :=
  if j.status.isTerminal then (j, .rejected "job is terminal")
  else if p < j.processed_files ∨ f < j.failed_files then
    (j, .rejected "stale progress report")
  else ({ j with status := .processing,
                 started_at := if j.status = .pending then some now else j.started_at,
                 processed_files := p, failed_files := f, current_file := cf },
        .accepted)

/-- Modelled from the spec: `completeJob(jobId)`.  Rejected on a
terminal job; rejected when not all files are accounted for; otherwise
the job becomes `completed` and `completed_at` is set. -/
def completeJob (j : Job) (now : Nat) : Job × OpResult :=
  if j.status.isTerminal then (j, .rejected "job is terminal")
  else if j.processed_files + j.failed_files ≠ j.total_files then
    (j, .rejected "not all files accounted for")
  else ({ j with status := .completed, completed_at := some now, current_file := none },
        .accepted)

/-- Modelled from the spec: `failJob(jobId, errorMessage)`.  Rejected on
a terminal job; otherwise the job becomes `failed` with the error
message and `completed_at` set. -/
def failJob (j : Job) (now : Nat) (msg : String) : Job × OpResult :=
  if j.status.isTerminal then (j, .rejected "job is terminal")
  else ({ j with status := .failed, error_message := some msg,
                 completed_at := some now, current_file := none },
        .accepted)

/-- Modelled from the spec: `cancelJob(jobId)`.  Rejected on a terminal
job; otherwise the job becomes `cancelled` with `completed_at` set. -/
def cancelJob (j : Job) (now : Nat) : Job × OpResult :=
  if j.status.isTerminal then (j, .rejected "job is terminal")
  else ({ j with status := .cancelled, completed_at := some now, current_file := none },
        .accepted)

/-! ### Failure traces of the reconnect logic

The client state after `n` consecutive failed connection attempts,
starting from a fresh client.  Attempt 1 is an initial `connect()`; a
failed attempt runs the socket's `onclose` handler (a connection
failure fires `onerror`, which closes the socket, which fires
`onclose`); every attempt after the first is made by the pending
reconnect timer firing. -/
def afterFailures : Nat → WSClient
  | 0 => wsConnect WSClient.init
  | 1 => (wsOnClose (wsConnect WSClient.init)).1
  | n + 2 => (wsOnClose (timerFire (afterFailures (n + 1)))).1

/-! ### Concrete fixtures used by witnesses -/

/-- A client with a reconnect timer pending at 500. -/
def pendingClient : WSClient := { WSClient.init with reconnectTimer := some 500 }

/-- A client whose socket is open. -/
def openClient : WSClient := { WSClient.init with ws := some ⟨.opened, 0⟩ }

/-- A completed job fixture. -/
def doneJob : Job :=
  { status := .completed, total_files := 10, processed_files := 10, failed_files := 0,
    current_file := none, started_at := some 1, completed_at := some 5,
    error_message := none }

/-- A client with handler 0 on `"job_update"` and handler 1 on `"*"`. -/
def c5client : WSClient := wsOn (wsOn WSClient.init "job_update" 0) "*" 1

/-- A `job_update` wire message fixture. -/
def c5msg : WSMessage := ⟨"job_update", Json.null⟩

/-- A client with handler 5 on the wildcard kind. -/
def c3client : WSClient := wsOn WSClient.init "*" 5

/-- A `job_update` wire message fixture. -/
def c3msg : WSMessage := ⟨"job_update", Json.num 1⟩

/-- A client with handler 0 on `"job_update"`. -/
def c6client : WSClient := wsOn WSClient.init "job_update" 0

/-- A `job_update` wire message fixture. -/
def c6msg : WSMessage := ⟨"job_update", Json.num 2⟩

/-- A handler effect: every handler detaches handler 0 from
`"job_update"` when invoked. -/
def c6eff : Nat → List (String × Nat) := fun _ => [("job_update", 0)]

/-- A processing job fixture for the Jobs page filter. -/
def procJob : IndexingJob :=
  { id := "j1", source_type := "github", source_url := "u", status := "processing",
    total_files := 1000, processed_files := 650, failed_files := 45,
    current_file := "f.pdf", progress_percent := 65, started_at := "t0",
    completed_at := none, error_message := none, metadata := [] }

/-! ## Supporting lemmas -/

theorem wsConnect_reconnectDelay (c : WSClient) :
    (wsConnect c).reconnectDelay = c.reconnectDelay := by
  unfold wsConnect; split <;> rfl

theorem wsConnect_reconnectTimer (c : WSClient) :
    (wsConnect c).reconnectTimer = c.reconnectTimer := by
  unfold wsConnect; split <;> rfl

theorem wsConnect_maxReconnectDelay (c : WSClient) :
    (wsConnect c).maxReconnectDelay = c.maxReconnectDelay := by
  unfold wsConnect; split <;> rfl

/-- Deleting a handler can only shrink what `regGet` returns. -/
theorem mem_regGet_regDel {r : Registry} {e1 : String} {h1 : Nat} {e : String} {x : Nat}
    (hx : x ∈ regGet (regDel r e1 h1) e) : x ∈ regGet r e := by
  induction r with
  | nil => simpa [regDel] using hx
  | cons kv rest ih =>
    obtain ⟨k, l⟩ := kv
    by_cases hk : k = e1
    · by_cases he : k = e
      · simp only [regDel, if_pos hk, regGet, if_pos he] at hx ⊢
        exact (List.mem_filter.1 hx).1
      · simpa only [regDel, if_pos hk, regGet, if_neg he] using hx
    · by_cases he : k = e
      · simpa only [regDel, if_neg hk, regGet, if_pos he] using hx
      · simp only [regDel, if_neg hk, regGet, if_neg he] at hx ⊢
        exact ih hx

/-- Running a batch of detach requests can only shrink `regGet`. -/
theorem mem_regGet_runEffects {effs : List (String × Nat)} {r : Registry}
    {e : String} {x : Nat} (hx : x ∈ regGet (runEffects effs r) e) : x ∈ regGet r e := by
  induction effs generalizing r with
  | nil => simpa [runEffects] using hx
  | cons eh rest ih =>
    obtain ⟨e1, h1⟩ := eh
    exact mem_regGet_regDel (ih (by simpa [runEffects] using hx))

/-- After a delete, the deleted handler is gone from that event's list. -/
theorem not_mem_regDel_self (r : Registry) (e : String) (h : Nat) :
    h ∉ regGet (regDel r e h) e := by
  induction r with
  | nil => simp [regDel, regGet]
  | cons kv rest ih =>
    obtain ⟨k, l⟩ := kv
    by_cases hk : k = e
    · simp [regDel, regGet, hk, List.mem_filter]
    · simp only [regDel, if_neg hk, regGet, if_neg hk]
      exact ih

/-- Deleting the same handler twice is the same as deleting it once. -/
theorem regDel_idem (r : Registry) (e : String) (h : Nat) :
    regDel (regDel r e h) e h = regDel r e h := by
  induction r with
  | nil => rfl
  | cons kv rest ih =>
    obtain ⟨k, l⟩ := kv
    by_cases hk : k = e
    · simp [regDel, hk, List.filter_filter]
    · simp [regDel, hk, ih]

/-- A handler absent from the current registry entry is never invoked by
the rest of a dispatch, whatever detach requests later handlers make. -/
theorem emitD_not_mem (eff : Nat → List (String × Nat)) (e : String) (m : WSMessage)
    (h : Nat) :
    ∀ (pending : List Nat) (r : Registry), h ∉ regGet r e →
      (h, m) ∉ (emitD eff r e pending m).2 := by
  intro pending
  induction pending with
  | nil => intro r hr; simp [emitD]
  | cons g rest ih =>
    intro r hr
    by_cases hg : g ∈ regGet r e
    · simp only [emitD, if_pos hg, List.mem_cons, not_or]
      refine ⟨fun heq => ?_, ih _ (fun hx => hr (mem_regGet_runEffects hx))⟩
      have hgh : h = g := congrArg Prod.fst heq
      exact hr (hgh ▸ hg)
    · simp only [emitD, if_neg hg]
      exact ih r hr

/-- On a duplicate-free list, `countP (· == h)` is 1 or 0 according to
membership. -/
theorem countP_beq_nodup (l : List Nat) (h : Nat) (hl : l.Nodup) :
    List.countP (fun g => g == h) l = if h ∈ l then 1 else 0 := by
  have hc : List.countP (fun g => g == h) l = List.count h l := rfl
  rw [hc]
  split
  · exact List.count_eq_one_of_mem hl (by assumption)
  · exact List.count_eq_zero_of_not_mem (by assumption)

/-- The reconnect state after `n + 1` consecutive failed attempts: the
stored delay and the pending timer both hold
`min (1000 * 2 ^ n) 30000`. -/
theorem afterFailures_spec (n : Nat) :
    (afterFailures (n + 1)).reconnectDelay = min (1000 * 2 ^ n) 30000 ∧
    (afterFailures (n + 1)).reconnectTimer = some (min (1000 * 2 ^ n) 30000) ∧
    (afterFailures (n + 1)).maxReconnectDelay = 30000 := by
  induction n with
  | zero => refine ⟨by decide, by decide, by decide⟩
  | succ m ih =>
    obtain ⟨hd, ht, hmax⟩ := ih
    have h1 : timerFire (afterFailures (m + 1)) = wsConnect
        { afterFailures (m + 1) with
          reconnectTimer := none,
          reconnectDelay := min ((afterFailures (m + 1)).reconnectDelay * 2)
            ((afterFailures (m + 1)).maxReconnectDelay) } := by
      unfold timerFire
      rw [ht]
    have key : min (min (1000 * 2 ^ m) 30000 * 2) 30000 = min (1000 * 2 ^ (m + 1)) 30000 := by
      have hp : (1000 : Nat) * 2 ^ (m + 1) = 1000 * 2 ^ m * 2 := by ring
      omega
    have h2 : afterFailures (m + 1 + 1) =
        (wsOnClose (timerFire (afterFailures (m + 1)))).1 := rfl
    rw [h2, h1, hd, hmax]
    unfold wsOnClose scheduleReconnect
    simp only [wsConnect_reconnectTimer, wsConnect_reconnectDelay, wsConnect_maxReconnectDelay]
    exact ⟨key, by rw [key], hmax⟩

/-! ## Claim theorems -/

/-- C1 (counterexample): the claim predicts that after 1 failed attempt
the pending delay is `min(1000 * 2 ^ 1, 30000) = 2000`, but after one
failed attempt the pending reconnect timer was scheduled with 1000 —
`scheduleReconnect` uses the current delay and the doubling only
happens when the timer fires. -/
theorem c1_backoff_counterexample :
    (afterFailures 1).reconnectTimer = some 1000 ∧
    min (1000 * 2 ^ 1) 30000 = 2000 ∧ (1000 : Nat) ≠ 2000 :=
  ⟨by decide, by decide, by decide⟩

/-- C1 (amended): after `N ≥ 1` consecutive failed connection attempts
the delay before attempt `N + 1` equals `min(initial * 2 ^ (N - 1), cap)`
with initial = 1000 and cap = 30000 — the first reconnect waits the
initial delay and doubling is applied when the timer fires; a successful
connection (`onopen`) resets the delay to the initial value. -/
theorem c1_backoff_amended (n : Nat) (c : WSClient) (hn : 1 ≤ n) :
    (afterFailures n).reconnectTimer = some (min (1000 * 2 ^ (n - 1)) 30000) ∧
    ((wsOnOpen c).1).reconnectDelay = 1000 := by
  constructor
  · obtain ⟨m, rfl⟩ : ∃ m, n = m + 1 := ⟨n - 1, by omega⟩
    simpa using (afterFailures_spec m).2.1
  · rfl

/-- C1 witness: the amended statement at `N = 3` and the fresh client. -/
theorem c1_backoff_amended_witness :
    (afterFailures 3).reconnectTimer = some (min (1000 * 2 ^ (3 - 1)) 30000) ∧
    ((wsOnOpen WSClient.init).1).reconnectDelay = 1000 :=
  c1_backoff_amended 3 WSClient.init (by decide)

/-- C2: once a job is in a terminal status, `reportProgress`,
`completeJob`, `failJob` and `cancelJob` all return a rejection and
leave every field of the job unchanged. -/
theorem c2_terminal_absorbing (j : Job) (now p f : Nat) (cf : Option String)
    (msg : String) (h : j.status.isTerminal = true) :
    reportProgress j now p f cf = (j, .rejected "job is terminal") ∧
    completeJob j now = (j, .rejected "job is terminal") ∧
    failJob j now msg = (j, .rejected "job is terminal") ∧
    cancelJob j now = (j, .rejected "job is terminal") := by
  refine ⟨?_, ?_, ?_, ?_⟩ <;>
    simp [reportProgress, completeJob, failJob, cancelJob, h]

/-- C2 witness: the four operations at a concrete completed job. -/
theorem c2_terminal_absorbing_witness :
    doneJob.status.isTerminal = true ∧
    reportProgress doneJob 7 11 0 none = (doneJob, .rejected "job is terminal") ∧
    completeJob doneJob 7 = (doneJob, .rejected "job is terminal") ∧
    failJob doneJob 7 "boom" = (doneJob, .rejected "job is terminal") ∧
    cancelJob doneJob 7 = (doneJob, .rejected "job is terminal") :=
  ⟨rfl, c2_terminal_absorbing doneJob 7 11 0 none "boom" rfl⟩

/-- C3 (counterexample): a handler registered under the wildcard kind
does not receive the connect status event emitted from `onopen` — the
`onopen`/`onclose` handlers emit only under the `"connection"` key and
never under `"*"`. -/
theorem c3_wildcard_counterexample :
    (0, connMsg true) ∉ (wsOnOpen (wsOn WSClient.init "*" 0)).2 := by
  have he : (wsOnOpen (wsOn WSClient.init "*" 0)).2 = [] := rfl
  rw [he]
  exact List.not_mem_nil _

/-- C3 (amended): every parsed wire message is delivered to every
wildcard handler, but the connect/disconnect status events are
delivered exactly to the handlers registered under the `"connection"`
kind — a wildcard handler receives them only if it is also registered
under `"connection"`. -/
theorem c3_event_delivery (c : WSClient) (m : WSMessage) (h : Nat)
    (hin : h ∈ regGet c.handlers "*") :
    (h, m) ∈ (wsOnMessage c (some m)).2 ∧
    (wsOnOpen c).2 = (regGet c.handlers "connection").map (fun g => (g, connMsg true)) ∧
    (wsOnClose c).2 = (regGet c.handlers "connection").map (fun g => (g, connMsg false)) := by
  refine ⟨?_, rfl, rfl⟩
  simp only [wsOnMessage, emit]
  exact List.mem_append_right _ (List.mem_map.2 ⟨h, hin, rfl⟩)

/-- C3 witness: the amended statement at a concrete wildcard handler. -/
theorem c3_event_delivery_witness : (5, c3msg) ∈ (wsOnMessage c3client (some c3msg)).2 :=
  (c3_event_delivery c3client c3msg 5 (by decide)).1

/-- C4: calling `scheduleReconnect` while a reconnect timer is already
pending changes nothing — no second timer, same pending delay. -/
theorem c4_schedule_idempotent (c : WSClient) (d : Nat)
    (h : c.reconnectTimer = some d) : scheduleReconnect c = c := by
  unfold scheduleReconnect
  rw [h]

/-- C4 witness: a client with a pending timer at 500. -/
theorem c4_schedule_idempotent_witness :
    pendingClient.reconnectTimer = some 500 ∧
    scheduleReconnect pendingClient = pendingClient :=
  ⟨rfl, c4_schedule_idempotent pendingClient 500 rfl⟩

/-- C5: for every parsed wire message, the invocations performed by
`onmessage` are exactly one per registration of a handler under the
message's own kind and one per registration under `"*"` — handlers
registered under any other kind are not invoked — and every invocation
receives the full message object. -/
theorem c5_onmessage_dispatch (c : WSClient) (m : WSMessage)
    (hn1 : (regGet c.handlers m.type).Nodup) (hn2 : (regGet c.handlers "*").Nodup) :
    (∀ h : Nat, List.countP (fun p => p.1 == h) (wsOnMessage c (some m)).2 =
      (if h ∈ regGet c.handlers m.type then 1 else 0) +
      (if h ∈ regGet c.handlers "*" then 1 else 0)) ∧
    (∀ p ∈ (wsOnMessage c (some m)).2, p.2 = m) := by
  constructor
  · intro h
    simp only [wsOnMessage, emit, List.countP_append, List.countP_map]
    have e1 : ((fun p : Nat × WSMessage => p.1 == h) ∘ fun g => (g, m)) =
        fun g => g == h := rfl
    rw [e1, countP_beq_nodup _ _ hn1, countP_beq_nodup _ _ hn2]
  · intro p hp
    simp only [wsOnMessage, emit] at hp
    rcases List.mem_append.1 hp with hp1 | hp1 <;>
      · obtain ⟨g, -, rfl⟩ := List.mem_map.1 hp1
        rfl

/-- C5 witness: the dispatch count at a concrete client and message. -/
theorem c5_onmessage_dispatch_witness :
    (regGet c5client.handlers c5msg.type).Nodup ∧
    List.countP (fun p => p.1 == 1) (wsOnMessage c5client (some c5msg)).2 =
      (if 1 ∈ regGet c5client.handlers c5msg.type then 1 else 0) +
      (if 1 ∈ regGet c5client.handlers "*" then 1 else 0) :=
  ⟨by decide, (c5_onmessage_dispatch c5client c5msg (by decide) (by decide)).1 1⟩

/-- C6: the detach action for `(event, h)` is idempotent (and total, so
it never throws), after it runs the handler is no longer invoked for
that kind, and detaching is safe during dispatch: once a handler is out
of the registry entry, no remainder of any dispatch — whatever detach
requests the invoked handlers make — invokes it. -/
theorem c6_detach_safe (c : WSClient) (e : String) (h : Nat) :
    detach (detach c e h) e h = detach c e h ∧
    (∀ m : WSMessage, (h, m) ∉ emit (detach c e h).handlers e m) ∧
    (∀ (eff : Nat → List (String × Nat)) (r : Registry) (pending : List Nat)
      (m : WSMessage), h ∉ regGet r e → (h, m) ∉ (emitD eff r e pending m).2) := by
  refine ⟨?_, ?_, ?_⟩
  · simp [detach, regDel_idem]
  · intro m hmem
    simp only [detach, emit] at hmem
    obtain ⟨g, hg, heq⟩ := List.mem_map.1 hmem
    have hgh : g = h := congrArg Prod.fst heq
    exact not_mem_regDel_self c.handlers e h (hgh ▸ hg)
  · intro eff r pending m hr
    exact emitD_not_mem eff e m h pending r hr

/-- C6 witness: idempotence at a concrete client, and a dispatch in
which every invoked handler detaches handler 0, which is already out of
the entry and is never invoked. -/
theorem c6_detach_safe_witness :
    detach (detach c6client "job_update" 0) "job_update" 0 = detach c6client "job_update" 0 ∧
    (0, c6msg) ∉ (emitD c6eff [("job_update", [1])] "job_update" [1, 0] c6msg).2 :=
  ⟨(c6_detach_safe c6client "job_update" 0).1,
   (c6_detach_safe c6client "job_update" 0).2.2 c6eff [("job_update", [1])] [1, 0] c6msg
     (by decide)⟩

/-- C7: the list fetchers return exactly the wrapped array: an array
body is returned unchanged, the `jobs` (resp. `queries`) field is
returned whatever other envelope fields are present, and a missing
field yields the empty list. -/
theorem c7_list_unwrap (elts : List Json) (fields : List (String × Json))
    (ys zs : List Json) :
    (fetchJobsUnwrap (.arr elts) = some (.arr elts) ∧
     fetchRecentQueriesUnwrap (.arr elts) = some (.arr elts)) ∧
    (lookupField fields "jobs" = some (.arr ys) →
      fetchJobsUnwrap (.obj fields) = some (.arr ys)) ∧
    (lookupField fields "jobs" = none →
      fetchJobsUnwrap (.obj fields) = some (.arr [])) ∧
    (lookupField fields "queries" = some (.arr zs) →
      fetchRecentQueriesUnwrap (.obj fields) = some (.arr zs)) ∧
    (lookupField fields "queries" = none →
      fetchRecentQueriesUnwrap (.obj fields) = some (.arr [])) := by
  refine ⟨⟨rfl, rfl⟩, ?_, ?_, ?_, ?_⟩ <;>
    · intro h
      simp only [fetchJobsUnwrap, fetchRecentQueriesUnwrap, unwrapListField]
      rw [h]

/-- C7 witness: an envelope with an extra `total` field, and one
without the expected field. -/
theorem c7_list_unwrap_witness :
    fetchJobsUnwrap (.obj [("jobs", .arr [.num 1]), ("total", .num 7)]) =
      some (.arr [.num 1]) ∧
    fetchRecentQueriesUnwrap (.obj [("total", .num 7)]) = some (.arr []) :=
  ⟨(c7_list_unwrap [] [("jobs", .arr [.num 1]), ("total", .num 7)] [.num 1] []).2.1 rfl,
   (c7_list_unwrap [] [("total", .num 7)] [] []).2.2.2.2 rfl⟩

/-- C8: the Jobs page filter returns the input unchanged for `"all"`;
otherwise it is an order-preserving sublist containing exactly the jobs
whose status equals the selected filter. -/
theorem c8_jobs_filter (f : String) (jobs : List IndexingJob) :
    (f = "all" → jobsFiltered f jobs = jobs) ∧
    List.Sublist (jobsFiltered f jobs) jobs ∧
    (f ≠ "all" →
      (∀ j, j ∈ jobsFiltered f jobs ↔ (j ∈ jobs ∧ j.status = f)) ∧
      (jobsFiltered f jobs).length =
        List.countP (fun j => decide (j.status = f)) jobs) := by
  refine ⟨?_, ?_, ?_⟩
  · intro h
    simp [jobsFiltered, h]
  · exact List.filter_sublist _
  · intro h
    constructor
    · intro j
      simp [jobsFiltered, List.mem_filter, if_neg h]
    · simp only [jobsFiltered, if_neg h]
      rw [List.countP_eq_length_filter]

/-- C8 witness: both branches at a concrete job list. -/
theorem c8_jobs_filter_witness :
    jobsFiltered "all" [procJob] = [procJob] ∧
    (procJob ∈ jobsFiltered "processing" [procJob] ↔
      (procJob ∈ [procJob] ∧ procJob.status = "processing")) :=
  ⟨(c8_jobs_filter "all" [procJob]).1 rfl,
   ((c8_jobs_filter "processing" [procJob]).2.2 (by decide)).1 procJob⟩

/-- C9: a frame whose payload is not valid JSON is silently dropped:
`onmessage` performs no handler invocation and leaves the whole client
state — registry, socket, reconnect timer and delay — unchanged. -/
theorem c9_malformed_dropped (c : WSClient) : wsOnMessage c none = (c, []) := rfl

/-- C10: calling `connect` while the current socket is open changes
nothing: no new socket, no field of the client changes. -/
theorem c10_connect_noop (c : WSClient) (h : readyStateIsOpen c.ws = true) :
    wsConnect c = c := by
  simp [wsConnect, h]

/-- C10 witness: a client whose socket is open. -/
theorem c10_connect_noop_witness :
    readyStateIsOpen openClient.ws = true ∧ wsConnect openClient = openClient :=
  ⟨by decide, c10_connect_noop openClient (by decide)⟩

end EpsteinRag
